import Mathlib

/-!
Shallow embedding of the model/operation data model and the geometry engine
of the 3dmodel repository (src/if_model.py, src/models.py, src/operations.py,
src/backend_trimesh.py, src/agent.py), together with theorems settling the
frozen claims about it.

Conventions of the embedding:
* Python floats are embedded as rationals (`ℚ`) in the data model, where the
  claims only involve exact arithmetic, and as reals (`ℝ`) in the NACA airfoil
  curve mathematics, which uses `cos`, `sqrt` and `arctan`.
* Python dict / JSON-ish dynamic values are embedded as the inductive `PyVal`;
  a dict is an association list in insertion order.  All dicts built by this
  program use a fixed key order, so ordered association-list equality is an
  adequate model of Python dict equality here.
* Fallible Python code (code that can raise) is embedded with `Except String`;
  external library calls that can fail (trimesh boolean operations) are passed
  in as `Except`-returning oracles.
-/

/-- Dynamic (Python/JSON style) value: `None`, booleans, numbers, strings,
lists, dicts as association lists in insertion order. -/
inductive PyVal where
  | none
  | bool (b : Bool)
  | num (q : ℚ)
  | str (s : String)
  | list (xs : List PyVal)
  | dict (entries : List (String × PyVal))
deriving Repr

/-- Lookup of a key in a dict association list (first match wins, as keys of a
Python dict are unique). -/
def lookupEntries : List (String × PyVal) → String → Option PyVal
  | [], _ => Option.none
  | (k, v) :: es, key => if k = key then some v else lookupEntries es key

/-- `d.get(key, dflt)` on a dynamic value: dict lookup with a default.  On a
non-dict value the source would raise `AttributeError`; the embedding
totalises that corner (never reached by this program) with the default. -/
def pyGetD (d : PyVal) (key : String) (dflt : PyVal) : PyVal :=
  match d with
  | PyVal.dict es => (lookupEntries es key).getD dflt
  | _ => dflt

/-- `key in d` for a dict value (`False` on non-dict values; the program only
applies it to dict records). -/
def pyHasKey (d : PyVal) (key : String) : Bool :=
  match d with
  | PyVal.dict es => es.any (fun e => e.1 = key)
  | _ => false

/-- `d is None`. -/
def pyIsNone : PyVal → Bool
  | PyVal.none => true
  | _ => false

/-- Python `v == s` for a string `s` on the right: true exactly when `v` is the
same string (comparison of a string with a value of another type is `False`). -/
def pyEqStr (v : PyVal) (s : String) : Bool :=
  match v with
  | PyVal.str t => t = s
  | _ => false

/-- Python truthiness of a dynamic value (`if item.get(...)`). -/
def pyTruthy : PyVal → Bool
  | PyVal.none => false
  | PyVal.bool b => b
  | PyVal.num q => decide (q ≠ 0)
  | PyVal.str s => !s.isEmpty
  | PyVal.list xs => !xs.isEmpty
  | PyVal.dict es => !es.isEmpty

/-- `v[i]` on a dynamic list value (out-of-range and non-list corners
totalised with `None`; the program only indexes 3-element lists). -/
def pyIdx (v : PyVal) (i : ℕ) : PyVal :=
  match v with
  | PyVal.list xs => xs.getD i PyVal.none
  | _ => PyVal.none

/-- Numeric content of a dynamic value (the program only applies it to
numbers; the non-number corner is totalised with `0`). -/
def pyNum : PyVal → ℚ
  | PyVal.num q => q
  | _ => 0

/-- Structural equality of dynamic values, mirroring Python `==` on the values
this program builds (all dicts are built with one fixed key order). -/
def pyBeq : PyVal → PyVal → Bool
  | PyVal.none, PyVal.none => true
  | PyVal.bool a, PyVal.bool b => a = b
  | PyVal.num a, PyVal.num b => a = b
  | PyVal.str a, PyVal.str b => a = b
  | PyVal.list [], PyVal.list [] => true
  | PyVal.list (x :: xs), PyVal.list (y :: ys) =>
      pyBeq x y && pyBeq (PyVal.list xs) (PyVal.list ys)
  | PyVal.dict [], PyVal.dict [] => true
  | PyVal.dict ((k, v) :: es), PyVal.dict ((l, w) :: fs) =>
      k = l && pyBeq v w && pyBeq (PyVal.dict es) (PyVal.dict fs)
  | _, _ => false

/-- The `Model` dataclass of src/if_model.py.  `model_data` is the open
type-specific mapping (`Optional[Dict[str, Any]]`), embedded as a `PyVal`
(`PyVal.none` standing for Python `None`). -/
structure Model where
  name : String
  description : String
  type : String
  coord_x : ℚ := 0
  coord_y : ℚ := 0
  coord_z : ℚ := 0
  box_size : List ℚ := [0, 0, 0]
  orientation_pitch : ℚ := 0
  orientation_yaw : ℚ := 0
  orientation_roll : ℚ := 0
  model_data : PyVal := PyVal.none
deriving Repr

/-- The `ModelOperation` dataclass of src/if_model.py.  Its `models` field is
annotated `List[Model]` in the source, but every producer
(`ModelRigidTransform.call` in src/operations.py) stores model *names*
(strings), and the consumer compares them with `m.name`; the embedding uses
`List String` accordingly. -/
structure ModelOperation where
  type : String
  description : String
  models : List String := []
  parameters : PyVal := PyVal.none
deriving Repr

/-- The per-model, per-operation field update performed inside
`BackendTrimesh.transform` (src/backend_trimesh.py lines 30-39): translation
and rotation are added componentwise, every component of `box_size` is
multiplied by the uniform scale, and nothing else is touched. -/
def applyRigid (o : ModelOperation) (m : Model) : Model :=
  let t := pyGetD o.parameters "translation" (PyVal.list [PyVal.num 0, PyVal.num 0, PyVal.num 0])
  let r := pyGetD o.parameters "rotation" (PyVal.list [PyVal.num 0, PyVal.num 0, PyVal.num 0])
  let s := pyGetD o.parameters "scale" (PyVal.num 1)
  { m with
    coord_x := m.coord_x + pyNum (pyIdx t 0),
    coord_y := m.coord_y + pyNum (pyIdx t 1),
    coord_z := m.coord_z + pyNum (pyIdx t 2),
    orientation_pitch := m.orientation_pitch + pyNum (pyIdx r 0),
    orientation_yaw := m.orientation_yaw + pyNum (pyIdx r 1),
    orientation_roll := m.orientation_roll + pyNum (pyIdx r 2),
    box_size := m.box_size.map (fun dim => dim * pyNum s) }

/-- `BackendTrimesh.transform` (src/backend_trimesh.py lines 18-40): fold the
operations over the model list; a `transform_rigid` operation updates every
model whose name equals `o.models[0]`.  Indexing `o.models[0]` with an empty
target list raises `IndexError` in the source, embedded as `Except.error`
(only reachable when at least one model is present, as in the source the
index is evaluated inside the loop over models). -/
def BackendTrimesh.transform (models : List Model) (operations : List ModelOperation) :
    Except String (List Model) :=
  operations.foldlM
    (fun ms o =>
      if o.type = "transform_rigid" then
        ms.mapM (fun m =>
          match o.models.head? with
          | some tgt => Except.ok (if m.name = tgt then applyRigid o m else m)
          | Option.none => Except.error "IndexError: list index out of range")
      else Except.ok ms)
    models

/-- Convenience constructor for the `ModelOperation` produced by
`ModelRigidTransform.call` (src/operations.py lines 43-52). -/
def mkRigidOp (target : String) (t r : List ℚ) (s : ℚ) : ModelOperation :=
  { type := "transform_rigid",
    description := "Rigid transformation operation",
    models := [target],
    parameters := PyVal.dict
      [("translation", PyVal.list (t.map PyVal.num)),
       ("rotation", PyVal.list (r.map PyVal.num)),
       ("scale", PyVal.num s)] }

lemma mapM_ok {α β : Type} (g : α → β) :
    ∀ ms : List α, (ms.mapM (fun m => (Except.ok (g m) : Except String β)))
      = Except.ok (ms.map g)
  | [] => rfl
  | m :: ms => by
      simp only [List.mapM_cons, mapM_ok g ms, List.map_cons]
      rfl

lemma transform_nil (ms : List Model) : BackendTrimesh.transform ms [] = Except.ok ms := rfl

lemma transform_cons (ms : List Model) (o : ModelOperation) (ops : List ModelOperation)
    (tgt : String) (ho : o.type = "transform_rigid") (ht : o.models.head? = some tgt) :
    BackendTrimesh.transform ms (o :: ops)
      = BackendTrimesh.transform
          (ms.map (fun m => if m.name = tgt then applyRigid o m else m)) ops := by
  unfold BackendTrimesh.transform
  rw [List.foldlM_cons, if_pos ho]
  simp only [ht, mapM_ok]
  rfl

lemma transform_single_rigid (ms : List Model) (o : ModelOperation) (tgt : String)
    (ho : o.type = "transform_rigid") (ht : o.models.head? = some tgt) :
    BackendTrimesh.transform ms [o]
      = Except.ok (ms.map (fun m => if m.name = tgt then applyRigid o m else m)) := by
  rw [transform_cons ms o [] tgt ho ht, transform_nil]

lemma applyRigid_mkRigidOp (m : Model) (tgt : String) (tx ty tz rx ry rz s : ℚ) :
    applyRigid (mkRigidOp tgt [tx, ty, tz] [rx, ry, rz] s) m
      = { m with
          coord_x := m.coord_x + tx,
          coord_y := m.coord_y + ty,
          coord_z := m.coord_z + tz,
          orientation_pitch := m.orientation_pitch + rx,
          orientation_yaw := m.orientation_yaw + ry,
          orientation_roll := m.orientation_roll + rz,
          box_size := m.box_size.map (fun dim => dim * s) } := rfl

/-- C1: a `transform_rigid` operation whose first target name equals `m.name`
adds its translation to `(coord_x, coord_y, coord_z)`, adds its rotation to
`(orientation_pitch, orientation_yaw, orientation_roll)`, multiplies every
component of `box_size` by the uniform scale, and leaves every other field —
in particular `model_data` — unchanged; the identity operation leaves the
model unchanged, and `translate(1,0,0)` followed by `translate(2,0,0)` moves
`coord_x` by exactly `3`. -/
theorem spec_c1 (m : Model) (tx ty tz rx ry rz s : ℚ) :
    BackendTrimesh.transform [m] [mkRigidOp m.name [tx, ty, tz] [rx, ry, rz] s]
      = Except.ok [{ m with
          coord_x := m.coord_x + tx,
          coord_y := m.coord_y + ty,
          coord_z := m.coord_z + tz,
          orientation_pitch := m.orientation_pitch + rx,
          orientation_yaw := m.orientation_yaw + ry,
          orientation_roll := m.orientation_roll + rz,
          box_size := m.box_size.map (fun dim => dim * s) }]
    ∧ BackendTrimesh.transform [m] [mkRigidOp m.name [0, 0, 0] [0, 0, 0] 1] = Except.ok [m]
    ∧ BackendTrimesh.transform [m]
        [mkRigidOp m.name [1, 0, 0] [0, 0, 0] 1, mkRigidOp m.name [2, 0, 0] [0, 0, 0] 1]
      = Except.ok [{ m with coord_x := m.coord_x + 3 }] := by
  refine ⟨?_, ?_, ?_⟩
  · rw [transform_single_rigid [m] (mkRigidOp m.name [tx, ty, tz] [rx, ry, rz] s) m.name rfl rfl]
    simp [applyRigid_mkRigidOp]
  · rw [transform_single_rigid [m] (mkRigidOp m.name [0, 0, 0] [0, 0, 0] 1) m.name rfl rfl]
    simp [applyRigid_mkRigidOp]
  · rw [transform_cons [m] (mkRigidOp m.name [1, 0, 0] [0, 0, 0] 1)
        [mkRigidOp m.name [2, 0, 0] [0, 0, 0] 1] m.name rfl rfl]
    simp only [List.map_cons, List.map_nil, if_pos rfl, applyRigid_mkRigidOp]
    rw [transform_single_rigid _ (mkRigidOp m.name [2, 0, 0] [0, 0, 0] 1) m.name rfl rfl]
    simp [applyRigid_mkRigidOp]
    ring

/-- C8 (amended): a pending `transform_rigid` operation updates every model in
the list whose name equals the operation's first target name (not only the
first such model); models with other names are unchanged, and if no model
matches the operation is a no-op and raises no error. -/
theorem spec_c8 (ms : List Model) (o : ModelOperation) (tgt : String)
    (ho : o.type = "transform_rigid") (ht : o.models.head? = some tgt) :
    BackendTrimesh.transform ms [o]
      = Except.ok (ms.map (fun m => if m.name = tgt then applyRigid o m else m))
    ∧ ((∀ m ∈ ms, m.name ≠ tgt) → BackendTrimesh.transform ms [o] = Except.ok ms) := by
  refine ⟨transform_single_rigid ms o tgt ho ht, fun hnone => ?_⟩
  rw [transform_single_rigid ms o tgt ho ht]
  congr 1
  induction ms with
  | nil => rfl
  | cons m ms ih =>
      simp only [List.map_cons, if_neg (hnone m (List.mem_cons_self m ms))]
      rw [ih (fun x hx => hnone x (List.mem_cons_of_mem m hx))]

theorem spec_c8_witness :
    (mkRigidOp "B" [0, 0, 0] [0, 0, 0] 1).type = "transform_rigid"
    ∧ (mkRigidOp "B" [0, 0, 0] [0, 0, 0] 1).models.head? = some "B"
    ∧ (BackendTrimesh.transform [{ name := "A", description := "", type := "cube" }]
          [mkRigidOp "B" [0, 0, 0] [0, 0, 0] 1]
        = Except.ok (([{ name := "A", description := "", type := "cube" }] : List Model).map
            (fun m => if m.name = "B"
              then applyRigid (mkRigidOp "B" [0, 0, 0] [0, 0, 0] 1) m else m))
       ∧ ((∀ m ∈ ([{ name := "A", description := "", type := "cube" }] : List Model),
              m.name ≠ "B") →
            BackendTrimesh.transform [{ name := "A", description := "", type := "cube" }]
              [mkRigidOp "B" [0, 0, 0] [0, 0, 0] 1]
            = Except.ok [{ name := "A", description := "", type := "cube" }])) :=
  ⟨rfl, rfl, spec_c8 _ _ "B" rfl rfl⟩

/-- C8 counterexample: with two models both named `"A"`, a rigid transform
targeting `"A"` updates BOTH models (the loop in the source has no `break`),
so the later model with the same name does not stay unchanged as the claim
states. -/
theorem spec_c8_counterexample :
    BackendTrimesh.transform
        [{ name := "A", description := "first", type := "cube" },
         { name := "A", description := "second", type := "cube" }]
        [mkRigidOp "A" [1, 0, 0] [0, 0, 0] 1]
      = Except.ok
        [{ name := "A", description := "first", type := "cube", coord_x := 1 },
         { name := "A", description := "second", type := "cube", coord_x := 1 }]
    ∧ BackendTrimesh.transform
        [{ name := "A", description := "first", type := "cube" },
         { name := "A", description := "second", type := "cube" }]
        [mkRigidOp "A" [1, 0, 0] [0, 0, 0] 1]
      ≠ Except.ok
        [{ name := "A", description := "first", type := "cube", coord_x := 1 },
         { name := "A", description := "second", type := "cube" }] := by
  rw [transform_single_rigid _ (mkRigidOp "A" [1, 0, 0] [0, 0, 0] 1) "A" rfl rfl]
  constructor
  · simp [applyRigid_mkRigidOp, Model.mk.injEq]
  · simp [applyRigid_mkRigidOp, Model.mk.injEq]

/-- Symbolic mesh expressions: the trimesh constructions this backend builds
(`trimesh.creation.cylinder`, `trimesh.creation.box`, the elliptical scaling
transform, the cutting-box translation, and the final world transform computed
by `BackendTrimesh._get_transform_matrix` from the model pose). -/
inductive Mesh where
  | cylinder (radius height : ℚ)
  | box (ex ey ez : ℚ)
  | scaled (sx sy : ℚ) (m : Mesh)
  | translated (tx ty tz : ℚ) (m : Mesh)
  | transformed (px py pz pitch yaw roll : ℚ) (m : Mesh)
deriving Repr, DecidableEq

/-- `model.model_data.get(key, dflt)` for a numeric field, as used by the
cylinder builders (src/backend_trimesh.py lines 141-143): dict lookup with a
default; the non-dict / non-numeric corners (which would raise in Python, and
are never reached for the models this program builds) are totalised with the
default. -/
def modelDataGet (m : Model) (key : String) (dflt : ℚ) : ℚ :=
  match pyGetD m.model_data key (PyVal.num dflt) with
  | PyVal.num q => q
  | _ => dflt

/-- The full (possibly elliptically scaled) cylinder built by
`BackendTrimesh._create_half_cylinder_mesh` before the boolean cut
(src/backend_trimesh.py lines 141-155). -/
def BackendTrimesh.full_cylinder (model : Model) : Mesh :=
  let radius_x := modelDataGet model "radius_x" (model.box_size.getD 0 0 / 2)
  let radius_y := modelDataGet model "radius_y" (model.box_size.getD 1 0 / 2)
  let height := modelDataGet model "height" (model.box_size.getD 2 0)
  let avg_radius := (radius_x + radius_y) / 2
  let full := Mesh.cylinder avg_radius height
  if |radius_x - radius_y| > 1 / 1000000 then
    Mesh.scaled (radius_x / avg_radius) (radius_y / avg_radius) full
  else full

/-- The cutting box of `BackendTrimesh._create_half_cylinder_mesh`
(src/backend_trimesh.py lines 159-161). -/
def BackendTrimesh.cutting_box (model : Model) : Mesh :=
  let radius_x := modelDataGet model "radius_x" (model.box_size.getD 0 0 / 2)
  let radius_y := modelDataGet model "radius_y" (model.box_size.getD 1 0 / 2)
  let height := modelDataGet model "height" (model.box_size.getD 2 0)
  Mesh.translated radius_x 0 0 (Mesh.box (radius_x * 4) (radius_y * 2) (height * 2))

/-- Application of the world transform matrix from
`BackendTrimesh._get_transform_matrix` (model pose) to a mesh. -/
def BackendTrimesh.apply_world_transform (model : Model) (mesh : Mesh) : Mesh :=
  Mesh.transformed model.coord_x model.coord_y model.coord_z
    model.orientation_pitch model.orientation_yaw model.orientation_roll mesh

/-- `BackendTrimesh._create_half_cylinder_mesh` (src/backend_trimesh.py lines
135-173).  The trimesh boolean difference is an external library call that can
fail; it is passed in as an `Except`-returning oracle `diff`.  The `try`
around it catches every failure and falls back to the uncut full cylinder;
the result type `Mesh` (not `Except`) reflects that the function itself
cannot raise from the cut. -/
def BackendTrimesh.create_half_cylinder_mesh
    (diff : Mesh → Mesh → Except String Mesh) (model : Model) : Mesh :=
  let full_cylinder := BackendTrimesh.full_cylinder model
  let half_cylinder :=
    match diff full_cylinder (BackendTrimesh.cutting_box model) with
    | Except.ok h => h
    | Except.error _ => full_cylinder
  BackendTrimesh.apply_world_transform model half_cylinder

/-- `BackendTrimesh.perform_boolean_operations` (src/backend_trimesh.py lines
329-348).  The three trimesh boolean methods are external fallible calls,
passed as oracles; the internal `raise ValueError` for an unsupported
operation name is caught by the function's own  `except` handler, which
returns the first mesh. -/
def BackendTrimesh.perform_boolean_operations
    (union intersect diff : Mesh → Mesh → Except String Mesh)
    (mesh1 mesh2 : Mesh) (operation : String) : Mesh :=
  let attempt : Except String Mesh :=
    if operation = "union" then union mesh1 mesh2
    else if operation = "intersection" then intersect mesh1 mesh2
    else if operation = "difference" then diff mesh1 mesh2
    else Except.error ("Unsupported boolean operation: " ++ operation)
  match attempt with
  | Except.ok m => m
  | Except.error _ => mesh1

/-- C7: if the boolean difference that cuts the full cylinder fails, the
half-cylinder builder does not propagate the failure: it returns the uncut
full cylinder with the model's world transform applied (and, its result type
being `Mesh` rather than `Except`, it never raises from the boolean cut). -/
theorem spec_c7 (model : Model) (diff : Mesh → Mesh → Except String Mesh) (e : String)
    (hfail : diff (BackendTrimesh.full_cylinder model) (BackendTrimesh.cutting_box model)
      = Except.error e) :
    BackendTrimesh.create_half_cylinder_mesh diff model
      = BackendTrimesh.apply_world_transform model (BackendTrimesh.full_cylinder model) := by
  unfold BackendTrimesh.create_half_cylinder_mesh
  simp only [hfail]

theorem spec_c7_witness :
    ((fun _ _ => Except.error "boolean operation failed" : Mesh → Mesh → Except String Mesh)
        (BackendTrimesh.full_cylinder
          { name := "H", description := "", type := "half cylinder",
            box_size := [2, 2, 1],
            model_data := PyVal.dict
              [("radius_x", PyVal.num 0), ("radius_y", PyVal.num 1),
               ("height", PyVal.num 1)] })
        (BackendTrimesh.cutting_box
          { name := "H", description := "", type := "half cylinder",
            box_size := [2, 2, 1],
            model_data := PyVal.dict
              [("radius_x", PyVal.num 0), ("radius_y", PyVal.num 1),
               ("height", PyVal.num 1)] })
      = Except.error "boolean operation failed")
    ∧ BackendTrimesh.create_half_cylinder_mesh
        (fun _ _ => Except.error "boolean operation failed")
        { name := "H", description := "", type := "half cylinder",
          box_size := [2, 2, 1],
          model_data := PyVal.dict
            [("radius_x", PyVal.num 0), ("radius_y", PyVal.num 1),
             ("height", PyVal.num 1)] }
      = BackendTrimesh.apply_world_transform
          { name := "H", description := "", type := "half cylinder",
            box_size := [2, 2, 1],
            model_data := PyVal.dict
              [("radius_x", PyVal.num 0), ("radius_y", PyVal.num 1),
               ("height", PyVal.num 1)] }
          (BackendTrimesh.full_cylinder
            { name := "H", description := "", type := "half cylinder",
              box_size := [2, 2, 1],
              model_data := PyVal.dict
                [("radius_x", PyVal.num 0), ("radius_y", PyVal.num 1),
                 ("height", PyVal.num 1)] }) :=
  ⟨rfl, spec_c7 _ _ "boolean operation failed" rfl⟩

/-- C10: for an operation string other than union, intersection and
difference, `perform_boolean_operations` catches its own unsupported-operation
error and returns the first mesh unchanged, so the caller cannot observe a
failure. -/
theorem spec_c10 (union intersect diff : Mesh → Mesh → Except String Mesh)
    (mesh1 mesh2 : Mesh) (operation : String)
    (h1 : operation ≠ "union") (h2 : operation ≠ "intersection")
    (h3 : operation ≠ "difference") :
    BackendTrimesh.perform_boolean_operations union intersect diff mesh1 mesh2 operation
      = mesh1 := by
  unfold BackendTrimesh.perform_boolean_operations
  rw [if_neg h1, if_neg h2, if_neg h3]

theorem spec_c10_witness :
    ("scale" : String) ≠ "union" ∧ ("scale" : String) ≠ "intersection"
    ∧ ("scale" : String) ≠ "difference"
    ∧ BackendTrimesh.perform_boolean_operations
        (fun _ _ => Except.error "fail") (fun _ _ => Except.error "fail")
        (fun _ _ => Except.error "fail")
        (Mesh.box 1 1 1) (Mesh.cylinder 1 1) "scale"
      = Mesh.box 1 1 1 :=
  ⟨by decide, by decide, by decide,
   spec_c10 _ _ _ _ _ "scale" (by decide) (by decide) (by decide)⟩

/-- Field-wise equality of models, mirroring the Python dataclass `==` used by
`target_model not in self.models` in src/agent.py line 235. -/
def modelBeq (a b : Model) : Bool :=
  a.name = b.name && a.description = b.description && a.type = b.type &&
  a.coord_x = b.coord_x && a.coord_y = b.coord_y && a.coord_z = b.coord_z &&
  a.box_size = b.box_size && a.orientation_pitch = b.orientation_pitch &&
  a.orientation_yaw = b.orientation_yaw && a.orientation_roll = b.orientation_roll &&
  pyBeq a.model_data b.model_data

/-- A registered tool, as dispatched by `Agent.handle_chat_response`: its name
and its `call` method.  A tool tagged `model` is invoked on the record
parameters alone and returns a `Model`; one tagged `operation` is invoked with
the list of available models first and returns a `ModelOperation`; either may
raise (for example `InvalidArgument` on a missing required parameter), hence
the `Except` results. -/
structure Tool where
  name : String
  call_as_model : PyVal → Except String Model
  call_as_operation : List Model → PyVal → Except String ModelOperation

/-- The agent state mutated by the dispatch loop: per-turn models and
operations plus the persistent name-to-model store (a dict in insertion
order). -/
structure AgentState where
  models : List Model
  operations : List ModelOperation
  persistent_models : List (String × Model)

/-- Python dict assignment `store[key] = v`: replace the value at an existing
key in place, otherwise append the new entry. -/
def storeSet (store : List (String × Model)) (key : String) (v : Model) :
    List (String × Model) :=
  match store with
  | [] => [(key, v)]
  | (k, w) :: es => if k = key then (k, v) :: es else (k, w) :: storeSet es key v

/-- Dict lookup in the persistent model store. -/
def storeFind : List (String × Model) → String → Option Model
  | [], _ => Option.none
  | (k, v) :: es, key => if k = key then some v else storeFind es key

/-- One iteration of the record loop of `Agent.handle_chat_response`
(src/agent.py lines 201-238): skip a `None` record or a record without a
`tool` key; look the tool up by exact name; skip when no tool is found or the
record has no truthy `has_content`; otherwise invoke the tool as a model
builder or an operation builder according to the record's `tool_type` tag and
append the result to the state (a model also replaces the persistent entry at
its name; an operation whose target name is in the persistent store pulls
that model into the per-turn list unless already present). -/
def Agent.handle_item (tools : List Tool) (st : AgentState) (item : PyVal) :
    Except String AgentState :=
  if pyIsNone item || !pyHasKey item "tool" then Except.ok st
  else
    match tools.find? (fun t => pyEqStr (pyGetD item "tool" PyVal.none) t.name) with
    | Option.none => Except.ok st
    | some tool =>
      if pyTruthy (pyGetD item "has_content" PyVal.none) then
        let args := pyGetD item "tool_parameters" (PyVal.dict [])
        if pyEqStr (pyGetD item "tool_type" (PyVal.str "")) "model" then
          match tool.call_as_model args with
          | Except.error e => Except.error e
          | Except.ok model =>
              Except.ok { st with
                models := st.models ++ [model],
                persistent_models := storeSet st.persistent_models model.name model }
        else if pyEqStr (pyGetD item "tool_type" (PyVal.str "")) "operation" then
          match tool.call_as_operation
              ((st.persistent_models.map Prod.snd) ++ st.models) args with
          | Except.error e => Except.error e
          | Except.ok op =>
              let st1 : AgentState := { st with operations := st.operations ++ [op] }
              match (match pyGetD args "model" (PyVal.str "") with
                     | PyVal.str s => storeFind st1.persistent_models s
                     | _ => Option.none) with
              | some target =>
                  Except.ok { st1 with
                    models := if st1.models.any (fun m => modelBeq m target)
                      then st1.models else st1.models ++ [target] }
              | Option.none => Except.ok st1
        else Except.ok st
      else Except.ok st

/-- The record loop of `Agent.handle_chat_response` over the parsed response
list (src/agent.py lines 201-238); an exception raised by a tool call
propagates out of the loop. -/
def Agent.handle_chat_response (tools : List Tool) (st : AgentState)
    (items : List PyVal) : Except String AgentState :=
  items.foldlM (Agent.handle_item tools) st

/-- C9: a record that has no truthy `has_content`, or names a tool not in the
registry, or lacks the `tool` key, is skipped by dispatch without raising and
without creating any model or operation (the state is returned unchanged),
and processing continues with the remaining records of the batch. -/
theorem spec_c9 (tools : List Tool) (st : AgentState) (item : PyVal) (rest : List PyVal)
    (h : pyTruthy (pyGetD item "has_content" PyVal.none) = false
       ∨ tools.find? (fun t => pyEqStr (pyGetD item "tool" PyVal.none) t.name) = Option.none
       ∨ pyHasKey item "tool" = false) :
    Agent.handle_item tools st item = Except.ok st
    ∧ Agent.handle_chat_response tools st (item :: rest)
      = Agent.handle_chat_response tools st rest := by
  have hskip : Agent.handle_item tools st item = Except.ok st := by
    unfold Agent.handle_item
    by_cases h0 : (pyIsNone item || !pyHasKey item "tool") = true
    · rw [if_pos h0]
    · rw [if_neg h0]
      rcases h with hcontent | hfind | hkey
      · cases hfound : tools.find? (fun t => pyEqStr (pyGetD item "tool" PyVal.none) t.name) with
        | none => rfl
        | some tool => simp [hcontent]
      · rw [hfind]
      · exact absurd (by simp [hkey]) h0
  refine ⟨hskip, ?_⟩
  unfold Agent.handle_chat_response
  rw [List.foldlM_cons, hskip]
  rfl

theorem spec_c9_witness :
    (([] : List Tool).find?
        (fun t => pyEqStr (pyGetD (PyVal.dict [("tool", PyVal.str "Cube"),
          ("has_content", PyVal.bool true)]) "tool" PyVal.none) t.name) = Option.none)
    ∧ Agent.handle_item []
        { models := [], operations := [], persistent_models := [] }
        (PyVal.dict [("tool", PyVal.str "Cube"), ("has_content", PyVal.bool true)])
      = Except.ok { models := [], operations := [], persistent_models := [] }
    ∧ Agent.handle_chat_response []
        { models := [], operations := [], persistent_models := [] }
        [PyVal.dict [("tool", PyVal.str "Cube"), ("has_content", PyVal.bool true)]]
      = Agent.handle_chat_response []
          { models := [], operations := [], persistent_models := [] } [] :=
  ⟨rfl,
   (spec_c9 [] _ _ [] (Or.inr (Or.inl rfl))).1,
   (spec_c9 [] _ _ [] (Or.inr (Or.inl rfl))).2⟩

/-- `Model.to_dict` (src/if_model.py lines 18-31): the eleven fields in source
order, numbers boxed as dynamic values. -/
def Model.to_dict (m : Model) : PyVal :=
  PyVal.dict
    [("name", PyVal.str m.name),
     ("description", PyVal.str m.description),
     ("type", PyVal.str m.type),
     ("coord_x", PyVal.num m.coord_x),
     ("coord_y", PyVal.num m.coord_y),
     ("coord_z", PyVal.num m.coord_z),
     ("box_size", PyVal.list (m.box_size.map PyVal.num)),
     ("orientation_pitch", PyVal.num m.orientation_pitch),
     ("orientation_yaw", PyVal.num m.orientation_yaw),
     ("orientation_roll", PyVal.num m.orientation_roll),
     ("model_data", m.model_data)]

/-- The object built by the body of `Model.from_dict`: Python being untyped,
the constructed dataclass instance holds whatever dynamic values the lookups
return, so every field is a `PyVal` here. -/
structure RawModel where
  name : PyVal
  description : PyVal
  type : PyVal
  coord_x : PyVal
  coord_y : PyVal
  coord_z : PyVal
  box_size : PyVal
  orientation_pitch : PyVal
  orientation_yaw : PyVal
  orientation_roll : PyVal
  model_data : PyVal
deriving Repr

/-- The body of `Model.from_dict` (src/if_model.py lines 32-45), under the
intended binding of `cls` to the class (in the source the method lacks the
`classmethod` decorator, so `Model.from_dict(data)` actually binds the dict
to `cls` and raises `TypeError`; this definition embeds the field mapping the
body performs when the binding works).  The three orientation lookups use
`.get` with no default and so fall back to Python `None`, not `0.0`. -/
def Model.from_dict (data : PyVal) : RawModel :=
  { name := pyGetD data "name" (PyVal.str ""),
    description := pyGetD data "description" (PyVal.str ""),
    type := pyGetD data "type" (PyVal.str ""),
    coord_x := pyGetD data "coord_x" (PyVal.num 0),
    coord_y := pyGetD data "coord_y" (PyVal.num 0),
    coord_z := pyGetD data "coord_z" (PyVal.num 0),
    box_size := pyGetD data "box_size" (PyVal.list [PyVal.num 0, PyVal.num 0, PyVal.num 0]),
    orientation_pitch := pyGetD data "orientation_pitch" PyVal.none,
    orientation_yaw := pyGetD data "orientation_yaw" PyVal.none,
    orientation_roll := pyGetD data "orientation_roll" PyVal.none,
    model_data := pyGetD data "model_data" PyVal.none }

/-- The dynamic-value image of a typed model: what a faithful dataclass
instance equal to `m` looks like field by field. -/
def Model.toRaw (m : Model) : RawModel :=
  { name := PyVal.str m.name,
    description := PyVal.str m.description,
    type := PyVal.str m.type,
    coord_x := PyVal.num m.coord_x,
    coord_y := PyVal.num m.coord_y,
    coord_z := PyVal.num m.coord_z,
    box_size := PyVal.list (m.box_size.map PyVal.num),
    orientation_pitch := PyVal.num m.orientation_pitch,
    orientation_yaw := PyVal.num m.orientation_yaw,
    orientation_roll := PyVal.num m.orientation_roll,
    model_data := m.model_data }

/-- C2: the field mapping of `from_dict` applied to `to_dict m` reconstructs
every field of `m` exactly, for every model of every primitive type — the
round trip is an identity at the level of the field mapping.  (The claim
still fails on the code as shipped, because `from_dict` lacks its
`classmethod` decorator: see the corresponding result entry.) -/
theorem spec_c2 (m : Model) : Model.from_dict (Model.to_dict m) = Model.toRaw m := rfl

/-- `int(c)` for one character, as used on the NACA digits after validation
(ASCII decimal digits). -/
def digitVal (c : Char) : ℕ := c.toNat - '0'.toNat

/-- The `i`-th digit of a NACA designation string (the program only reads
digits of validated 4-character strings; out of range is totalised with 0). -/
def nacaDigit (s : String) (i : ℕ) : ℕ := digitVal (s.toList.getD i '0')

/-- `ModelNACA4.call` (src/models.py lines 358-408): validate that the
designation is exactly 4 decimal digits (else raise, embedded as
`Except.error`), parse `m`, `p`, `t`, and build the airfoil `Model` with its
approximate bounding box and type parameters. -/
def ModelNACA4.call (name naca_digits : String) (chord_length thickness : ℚ)
    (resolution : ℤ) (coord_x coord_y coord_z : ℚ) : Except String Model :=
  if naca_digits.length ≠ 4 || !naca_digits.toList.all Char.isDigit then
    Except.error "NACA digits must be a 4-digit string"
  else
    let m : ℚ := (nacaDigit naca_digits 0 : ℚ) / 100
    let p : ℚ := (nacaDigit naca_digits 1 : ℚ) / 10
    let t : ℚ := ((10 * nacaDigit naca_digits 2 + nacaDigit naca_digits 3 : ℕ) : ℚ) / 100
    Except.ok
      { name := name,
        description := "NACA 4-digit airfoil model",
        type := "naca4",
        coord_x := coord_x,
        coord_y := coord_y,
        coord_z := coord_z,
        box_size := [chord_length, thickness, chord_length * t * 2],
        orientation_pitch := 0,
        orientation_yaw := 0,
        orientation_roll := 0,
        model_data := PyVal.dict
          [("naca_digits", PyVal.str naca_digits),
           ("chord_length", PyVal.num chord_length),
           ("sheet_thickness", PyVal.num thickness),
           ("resolution", PyVal.num resolution),
           ("max_camber", PyVal.num m),
           ("max_camber_position", PyVal.num p),
           ("thickness_ratio", PyVal.num t),
           ("airfoil_type", PyVal.str "naca4")] }

noncomputable section

/-- Maximum camber fraction `m = int(naca_digits[0]) / 100.0`. -/
def nacaM (digits : String) : ℝ := (nacaDigit digits 0 : ℝ) / 100

/-- Camber-peak chord fraction `p = int(naca_digits[1]) / 10.0`. -/
def nacaP (digits : String) : ℝ := (nacaDigit digits 1 : ℝ) / 10

/-- Maximum thickness fraction `t = int(naca_digits[2:4]) / 100.0`. -/
def nacaT (digits : String) : ℝ :=
  ((10 * nacaDigit digits 2 + nacaDigit digits 3 : ℕ) : ℝ) / 100

/-- `np.linspace(0, np.pi, resolution)`: the `i`-th sample
`beta_i = i * pi / (resolution - 1)`. -/
def nacaBeta (resolution i : ℕ) : ℝ := (i : ℝ) * Real.pi / ((resolution : ℝ) - 1)

/-- Cosine-spaced chord station `x_i = chord_length * (1 - cos beta_i) / 2`
(src/models.py lines 431-432). -/
def nacaX (chord_length : ℝ) (n i : ℕ) : ℝ :=
  chord_length * (1 - Real.cos (nacaBeta n i)) / 2

/-- Thickness half-profile `yt` at station `i` (src/models.py lines 435-441). -/
def nacaYt (digits : String) (chord_length : ℝ) (n i : ℕ) : ℝ :=
  5 * nacaT digits * chord_length *
    (0.2969 * Real.sqrt (nacaX chord_length n i / chord_length)
      - 0.1260 * (nacaX chord_length n i / chord_length)
      - 0.3516 * (nacaX chord_length n i / chord_length) ^ 2
      + 0.2843 * (nacaX chord_length n i / chord_length) ^ 3
      - 0.1015 * (nacaX chord_length n i / chord_length) ^ 4)

/-- Camber line `yc` at station `i` (src/models.py lines 443-460): zero for a
symmetric airfoil (`m = 0` or `p = 0`), else parabolic forward of `p * c`
(the `mask1` branch, `x <= p*c`) and aft of it (the `mask2` branch). -/
def nacaYc (digits : String) (chord_length : ℝ) (n i : ℕ) : ℝ :=
  if nacaM digits = 0 ∨ nacaP digits = 0 then 0
  else if nacaX chord_length n i ≤ nacaP digits * chord_length then
    nacaM digits * chord_length *
      (2 * nacaP digits * nacaX chord_length n i / chord_length
        - (nacaX chord_length n i / chord_length) ^ 2) / nacaP digits ^ 2
  else
    nacaM digits * chord_length *
      ((1 - 2 * nacaP digits) + 2 * nacaP digits * nacaX chord_length n i / chord_length
        - (nacaX chord_length n i / chord_length) ^ 2) / (1 - nacaP digits) ^ 2

/-- Camber-line slope `dyc_dx` at station `i`
(src/models.py lines 443-461). -/
def nacaDycDx (digits : String) (chord_length : ℝ) (n i : ℕ) : ℝ :=
  if nacaM digits = 0 ∨ nacaP digits = 0 then 0
  else if nacaX chord_length n i ≤ nacaP digits * chord_length then
    2 * nacaM digits * (nacaP digits - nacaX chord_length n i / chord_length)
      / nacaP digits ^ 2
  else
    2 * nacaM digits * (nacaP digits - nacaX chord_length n i / chord_length)
      / (1 - nacaP digits) ^ 2

/-- Surface normal angle `theta = arctan(dyc_dx)` (src/models.py line 464). -/
def nacaTheta (digits : String) (chord_length : ℝ) (n i : ℕ) : ℝ :=
  Real.arctan (nacaDycDx digits chord_length n i)

/-- Upper surface abscissa `x_upper = x - yt * sin(theta)`. -/
def nacaXUpper (digits : String) (chord_length : ℝ) (n i : ℕ) : ℝ :=
  nacaX chord_length n i
    - nacaYt digits chord_length n i * Real.sin (nacaTheta digits chord_length n i)

/-- Upper surface ordinate `y_upper = yc + yt * cos(theta)`. -/
def nacaYUpper (digits : String) (chord_length : ℝ) (n i : ℕ) : ℝ :=
  nacaYc digits chord_length n i
    + nacaYt digits chord_length n i * Real.cos (nacaTheta digits chord_length n i)

/-- Lower surface abscissa `x_lower = x + yt * sin(theta)`. -/
def nacaXLower (digits : String) (chord_length : ℝ) (n i : ℕ) : ℝ :=
  nacaX chord_length n i
    + nacaYt digits chord_length n i * Real.sin (nacaTheta digits chord_length n i)

/-- Lower surface ordinate `y_lower = yc - yt * cos(theta)`. -/
def nacaYLower (digits : String) (chord_length : ℝ) (n i : ℕ) : ℝ :=
  nacaYc digits chord_length n i
    - nacaYt digits chord_length n i * Real.cos (nacaTheta digits chord_length n i)

/-- `ModelNACA4.generate_naca4_coordinates` (src/models.py lines 410-472):
the five parallel arrays `(x, x_upper, y_upper, x_lower, y_lower)`, each of
length `resolution`, as lists over the station index. -/
def ModelNACA4.generate_naca4_coordinates (naca_digits : String)
    (chord_length : ℝ) (resolution : ℕ) :
    List ℝ × List ℝ × List ℝ × List ℝ × List ℝ :=
  ((List.range resolution).map (nacaX chord_length resolution),
   (List.range resolution).map (nacaXUpper naca_digits chord_length resolution),
   (List.range resolution).map (nacaYUpper naca_digits chord_length resolution),
   (List.range resolution).map (nacaXLower naca_digits chord_length resolution),
   (List.range resolution).map (nacaYLower naca_digits chord_length resolution))

end

/-- C3: `ModelNACA4.call` raises exactly when the designation is not 4
decimal digits — the invocation succeeds (returns a model, no raise) if and
only if `naca_digits` has length 4 and every character is a digit; this
includes the degenerate but valid codes with `m = 0` or `t = 0`, and when it
raises no model is produced (the `Except` is an error). -/
theorem spec_c3 (name naca_digits : String) (chord_length thickness : ℚ)
    (resolution : ℤ) (coord_x coord_y coord_z : ℚ) :
    (ModelNACA4.call name naca_digits chord_length thickness resolution
        coord_x coord_y coord_z).isOk
      = (naca_digits.length == 4 && naca_digits.toList.all Char.isDigit) := by
  unfold ModelNACA4.call
  by_cases hlen : naca_digits.length = 4
  · by_cases hdig : naca_digits.data.all Char.isDigit = true
    · rw [if_neg (by simp [hlen]; exact List.all_eq_true.mp hdig)]
      simp [Except.isOk, Except.toBool, hlen, hdig]
    · have hd : naca_digits.data.all Char.isDigit = false := Bool.eq_false_iff.mpr hdig
      have hnot : (!naca_digits.toList.all Char.isDigit) = true := by
        rw [show naca_digits.toList.all Char.isDigit = false from hd]; rfl
      rw [if_pos (Bool.or_eq_true _ _ |>.mpr (Or.inr hnot))]
      simp [Except.isOk, Except.toBool, hd]
  · rw [if_pos (Bool.or_eq_true _ _ |>.mpr (Or.inl (decide_eq_true hlen)))]
    simp [Except.isOk, Except.toBool, hlen]

lemma nacaBeta_zero (n : ℕ) : nacaBeta n 0 = 0 := by
  simp [nacaBeta]

lemma nacaBeta_last (n : ℕ) (hn : 2 ≤ n) : nacaBeta n (n - 1) = Real.pi := by
  unfold nacaBeta
  have h2 : (2 : ℝ) ≤ (n : ℝ) := by exact_mod_cast hn
  have h1 : ((n : ℝ) - 1) ≠ 0 := by linarith
  have hcast : ((n - 1 : ℕ) : ℝ) = (n : ℝ) - 1 := by
    have hle : 1 ≤ n := le_trans (by norm_num) hn
    push_cast [Nat.cast_sub hle]
    ring
  rw [hcast, mul_comm, mul_div_assoc, div_self h1, mul_one]

lemma nacaBeta_mem (n i : ℕ) (hn : 2 ≤ n) (hi : i < n) :
    nacaBeta n i ∈ Set.Icc 0 Real.pi := by
  have h2 : (2 : ℝ) ≤ (n : ℝ) := by exact_mod_cast hn
  have hden : (0 : ℝ) < (n : ℝ) - 1 := by linarith
  constructor
  · exact div_nonneg (mul_nonneg (Nat.cast_nonneg i) Real.pi_pos.le) hden.le
  · unfold nacaBeta
    rw [div_le_iff₀ hden]
    have hin : (i : ℝ) + 1 ≤ (n : ℝ) := by exact_mod_cast Nat.succ_le_of_lt hi
    nlinarith [Real.pi_pos]

lemma nacaBeta_lt (n : ℕ) (hn : 2 ≤ n) {i j : ℕ} (hij : i < j) :
    nacaBeta n i < nacaBeta n j := by
  unfold nacaBeta
  have h2 : (2 : ℝ) ≤ (n : ℝ) := by exact_mod_cast hn
  have hden : (0 : ℝ) < (n : ℝ) - 1 := by linarith
  have hij' : (i : ℝ) < (j : ℝ) := by exact_mod_cast hij
  exact div_lt_div_of_pos_right (by nlinarith [Real.pi_pos]) hden

/-- C4: the chord stations of `generate_naca4_coordinates` form a list of
length `n` sampled by cosine spacing `x_i = c * (1 - cos beta_i) / 2` with
`beta_i = i * pi / (n - 1)` linear in `[0, pi]`; the first station is the
leading edge `0`, the last is the trailing edge `c`, and stations are
strictly increasing from leading to trailing edge. -/
theorem spec_c4 (naca_digits : String) (c : ℝ) (n : ℕ)
    (hdigits : naca_digits.length = 4 ∧ naca_digits.toList.all Char.isDigit = true)
    (hc : 0 < c) (hn : 2 ≤ n) :
    (ModelNACA4.generate_naca4_coordinates naca_digits c n).1
        = (List.range n).map (nacaX c n)
    ∧ ((ModelNACA4.generate_naca4_coordinates naca_digits c n).1).length = n
    ∧ (∀ i, nacaX c n i = c * (1 - Real.cos (nacaBeta n i)) / 2)
    ∧ (∀ i, nacaBeta n i = (i : ℝ) * Real.pi / ((n : ℝ) - 1))
    ∧ nacaX c n 0 = 0
    ∧ nacaX c n (n - 1) = c
    ∧ (∀ i j, i < j → j < n → nacaX c n i < nacaX c n j) := by
  refine ⟨rfl, ?_, fun i => rfl, fun i => rfl, ?_, ?_, ?_⟩
  · simp [ModelNACA4.generate_naca4_coordinates]
  · unfold nacaX
    rw [nacaBeta_zero, Real.cos_zero]
    ring
  · unfold nacaX
    rw [nacaBeta_last n hn, Real.cos_pi]
    ring
  · intro i j hij hj
    unfold nacaX
    have hbi := nacaBeta_mem n i hn (lt_trans hij hj)
    have hbj := nacaBeta_mem n j hn hj
    have hcos := Real.strictAntiOn_cos hbi hbj (nacaBeta_lt n hn hij)
    nlinarith [mul_pos hc (sub_pos.mpr hcos)]

theorem spec_c4_witness :
    (("0012" : String).length = 4 ∧ ("0012" : String).toList.all Char.isDigit = true)
    ∧ (0 : ℝ) < 1 ∧ (2 : ℕ) ≤ 2
    ∧ ((ModelNACA4.generate_naca4_coordinates "0012" 1 2).1).length = 2
    ∧ nacaX 1 2 0 = 0
    ∧ nacaX 1 2 (2 - 1) = 1
    ∧ nacaX 1 2 0 < nacaX 1 2 1 :=
  ⟨⟨by decide, by decide⟩, by norm_num, by norm_num,
   (spec_c4 "0012" 1 2 ⟨by decide, by decide⟩ (by norm_num) (by norm_num)).2.1,
   (spec_c4 "0012" 1 2 ⟨by decide, by decide⟩ (by norm_num) (by norm_num)).2.2.2.2.1,
   (spec_c4 "0012" 1 2 ⟨by decide, by decide⟩ (by norm_num) (by norm_num)).2.2.2.2.2.1,
   (spec_c4 "0012" 1 2 ⟨by decide, by decide⟩ (by norm_num) (by norm_num)).2.2.2.2.2.2
     0 1 (by norm_num) (by norm_num)⟩

/-- C5: when the first NACA digit is 0 or the second is 0 (`m = 0` or
`p = 0`), the camber line is identically zero, the mean of the two surfaces
`(y_upper + y_lower) / 2` vanishes at every station, and the upper and lower
abscissae both coincide with the chord stations (in particular this holds
for code "0012"). -/
theorem spec_c5 (naca_digits : String) (c : ℝ) (n : ℕ)
    (hsym : nacaM naca_digits = 0 ∨ nacaP naca_digits = 0) (i : ℕ) :
    nacaYc naca_digits c n i = 0
    ∧ (nacaYUpper naca_digits c n i + nacaYLower naca_digits c n i) / 2 = 0
    ∧ nacaXUpper naca_digits c n i = nacaX c n i
    ∧ nacaXLower naca_digits c n i = nacaX c n i := by
  have hyc : nacaYc naca_digits c n i = 0 := by
    unfold nacaYc
    rw [if_pos hsym]
  have hdyc : nacaDycDx naca_digits c n i = 0 := by
    unfold nacaDycDx
    rw [if_pos hsym]
  have htheta : nacaTheta naca_digits c n i = 0 := by
    unfold nacaTheta
    rw [hdyc, Real.arctan_zero]
  refine ⟨hyc, ?_, ?_, ?_⟩
  · unfold nacaYUpper nacaYLower
    rw [hyc]
    ring
  · unfold nacaXUpper
    rw [htheta, Real.sin_zero, mul_zero, sub_zero]
  · unfold nacaXLower
    rw [htheta, Real.sin_zero, mul_zero, add_zero]

theorem spec_c5_witness :
    (nacaM "0012" = 0 ∨ nacaP "0012" = 0)
    ∧ nacaYc "0012" 1 50 0 = 0
    ∧ (nacaYUpper "0012" 1 50 0 + nacaYLower "0012" 1 50 0) / 2 = 0
    ∧ nacaXUpper "0012" 1 50 0 = nacaX 1 50 0
    ∧ nacaXLower "0012" 1 50 0 = nacaX 1 50 0 := by
  have hm : nacaM "0012" = 0 := by
    have h0 : nacaDigit "0012" 0 = 0 := by decide
    simp [nacaM, h0]
  exact ⟨Or.inl hm,
    (spec_c5 "0012" 1 50 (Or.inl hm) 0).1,
    (spec_c5 "0012" 1 50 (Or.inl hm) 0).2.1,
    (spec_c5 "0012" 1 50 (Or.inl hm) 0).2.2.1,
    (spec_c5 "0012" 1 50 (Or.inl hm) 0).2.2.2⟩

/-- The fixed NACA thickness polynomial in `s = sqrt(x/c)` is non-negative on
`[0, 1]`: it factors as `s * (21 + (1 - s) * g s) / 10000` with `g`
non-negative there. -/
lemma naca_poly_nonneg (s : ℝ) (h0 : 0 ≤ s) (h1 : s ≤ 1) :
    0 ≤ 0.2969 * s - 0.1260 * s ^ 2 - 0.3516 * s ^ 4 + 0.2843 * s ^ 6
        - 0.1015 * s ^ 8 := by
  have hg : 0 ≤ 1015 * s ^ 6 + 1015 * s ^ 5 - 1828 * s ^ 4 - 1828 * s ^ 3
      + 1688 * s ^ 2 + 1688 * s + 2948 := by
    have h42 : s ^ 4 ≤ s ^ 2 := pow_le_pow_of_le_one h0 h1 (by norm_num)
    have h31 : s ^ 3 ≤ s := by
      simpa using pow_le_pow_of_le_one h0 h1 (show 1 ≤ 3 by norm_num)
    have h5 : 0 ≤ s ^ 5 := pow_nonneg h0 5
    have h6 : 0 ≤ s ^ 6 := pow_nonneg h0 6
    have h21 : s ^ 2 ≤ 1 := pow_le_one₀ h0 h1
    linarith
  have key : 0.2969 * s - 0.1260 * s ^ 2 - 0.3516 * s ^ 4 + 0.2843 * s ^ 6
        - 0.1015 * s ^ 8
      = s * (21 + (1 - s) * (1015 * s ^ 6 + 1015 * s ^ 5 - 1828 * s ^ 4
          - 1828 * s ^ 3 + 1688 * s ^ 2 + 1688 * s + 2948)) / 10000 := by
    ring
  rw [key]
  have hq : 0 ≤ 21 + (1 - s) * (1015 * s ^ 6 + 1015 * s ^ 5 - 1828 * s ^ 4
      - 1828 * s ^ 3 + 1688 * s ^ 2 + 1688 * s + 2948) := by
    have := mul_nonneg (sub_nonneg.mpr h1) hg
    linarith
  exact div_nonneg (mul_nonneg h0 hq) (by norm_num)

lemma nacaX_div_chord (c : ℝ) (hc : 0 < c) (n i : ℕ) :
    nacaX c n i / c = (1 - Real.cos (nacaBeta n i)) / 2 := by
  unfold nacaX
  field_simp
  ring

lemma nacaYt_nonneg (naca_digits : String) (c : ℝ) (hc : 0 < c) (n i : ℕ) :
    0 ≤ nacaYt naca_digits c n i := by
  have hu0 : 0 ≤ nacaX c n i / c := by
    rw [nacaX_div_chord c hc n i]
    have := Real.cos_le_one (nacaBeta n i)
    linarith
  have hu1 : nacaX c n i / c ≤ 1 := by
    rw [nacaX_div_chord c hc n i]
    have := Real.neg_one_le_cos (nacaBeta n i)
    linarith
  have hs0 := Real.sqrt_nonneg (nacaX c n i / c)
  have hs1 : Real.sqrt (nacaX c n i / c) ≤ 1 := Real.sqrt_le_one.mpr hu1
  have hpoly := naca_poly_nonneg (Real.sqrt (nacaX c n i / c)) hs0 hs1
  have hsq : Real.sqrt (nacaX c n i / c) ^ 2 = nacaX c n i / c := Real.sq_sqrt hu0
  have hE : 0 ≤ 0.2969 * Real.sqrt (nacaX c n i / c) - 0.1260 * (nacaX c n i / c)
      - 0.3516 * (nacaX c n i / c) ^ 2 + 0.2843 * (nacaX c n i / c) ^ 3
      - 0.1015 * (nacaX c n i / c) ^ 4 := by
    generalize hgen : Real.sqrt (nacaX c n i / c) = s at hpoly hsq
    rw [← hsq]
    nlinarith [hpoly]
  have ht : 0 ≤ nacaT naca_digits := by
    unfold nacaT
    positivity
  unfold nacaYt
  exact mul_nonneg (mul_nonneg (mul_nonneg (by norm_num) ht) hc.le) hE

/-- C6: at every sampled station the upper surface lies on or above the lower
surface, `y_upper[i] >= y_lower[i]`, because the thickness half-profile is
non-negative on the chord and the camber-angle cosine is non-negative. -/
theorem spec_c6 (naca_digits : String) (c : ℝ) (n : ℕ)
    (hdigits : naca_digits.length = 4 ∧ naca_digits.toList.all Char.isDigit = true)
    (hc : 0 < c) (hn : 2 ≤ n) (i : ℕ) :
    nacaYLower naca_digits c n i ≤ nacaYUpper naca_digits c n i
    ∧ (ModelNACA4.generate_naca4_coordinates naca_digits c n).2.2.1
        = (List.range n).map (nacaYUpper naca_digits c n)
    ∧ (ModelNACA4.generate_naca4_coordinates naca_digits c n).2.2.2.2
        = (List.range n).map (nacaYLower naca_digits c n) := by
  refine ⟨?_, rfl, rfl⟩
  have hyt := nacaYt_nonneg naca_digits c hc n i
  have hcos : 0 ≤ Real.cos (nacaTheta naca_digits c n i) := by
    unfold nacaTheta
    exact Real.cos_nonneg_of_mem_Icc
      ⟨(Real.neg_pi_div_two_lt_arctan _).le, (Real.arctan_lt_pi_div_two _).le⟩
  have := mul_nonneg hyt hcos
  unfold nacaYUpper nacaYLower
  linarith

theorem spec_c6_witness :
    (("2412" : String).length = 4 ∧ ("2412" : String).toList.all Char.isDigit = true)
    ∧ (0 : ℝ) < 1 ∧ (2 : ℕ) ≤ 50
    ∧ nacaYLower "2412" 1 50 7 ≤ nacaYUpper "2412" 1 50 7 :=
  ⟨⟨by decide, by decide⟩, by norm_num, by norm_num,
   (spec_c6 "2412" 1 50 ⟨by decide, by decide⟩ (by norm_num) (by norm_num) 7).1⟩
